import Mathlib

/-!
Shallow embedding of the Googol-Server user/bar REST controllers
(src/server/user/user.route.js: route table and user controller;
src/unnamed/part_000: bar controller) together with the parts of the
data layer they call.  Documents live in an explicit in-memory database
state `DB`; asynchronous handlers become pure functions from the state
and the request data to a handler result (`res.json` value or the error
passed to `next`).  Model-layer operations (user.model.js, bar.model.js,
APIError/ErrorMessages helpers, TeamService) are not part of the sources;
each such definition carries a doc comment starting `Modelled from the
spec:` and follows the specification's wording.  Storage failures of a
write are injected through an explicit `fault : Option Err` argument so
that the error-propagation behaviour of the controllers can be stated
for an arbitrary underlying storage error.
-/

/-- `new APIError(message, status, isPublic)` of the APIError helper:
a typed application error carrying a user-facing message, an HTTP status
and the operational flag. -/
structure APIError where
  message : String
  status : Nat
  isPublic : Bool
  deriving DecidableEq, Repr

/-- The errors that can travel through a `next(e)` call: the NotFound
error of a failed by-id lookup, the self-follow rejection, a wrapped
`APIError`, or an arbitrary underlying storage error. -/
inductive Err where
  | notFound : Err
  | selfFollow : Err
  | api : APIError → Err
  | storage : String → Err
  deriving DecidableEq, Repr

/-- Discriminator: is this error a typed application error (`APIError`)? -/
def Err.isApi : Err → Bool
  | Err.api _ => true
  | _ => false

/-- GeoJSON point as built by `saveBar`: `{ type: "Point", coordinates: [longitude, latitude] }`.
The numeric values are only copied, never computed with, so they are
embedded as integers. -/
structure GeoPoint where
  type : String
  coordinates : List Int
  deriving DecidableEq, Repr

/-- A team object as returned by the team lookup service. -/
structure Team where
  _id : String
  name : String
  deriving DecidableEq, Repr

/-- A user document: identity fields, favourite team ids, the follow
graph back-reference pair and the followed bars. -/
structure User where
  _id : String
  username : String
  email : String
  password : String
  favTeams : List String
  following : List String
  followers : List String
  followingBars : List String
  deriving DecidableEq, Repr

/-- A bar document: identity fields, geolocation and follower ids. -/
structure Bar where
  _id : String
  name : String
  placeId : String
  location : GeoPoint
  followers : List String
  deriving DecidableEq, Repr

/-- The result of `user.toObject()` after the handler overwrote
`favTeams` with the populated team objects (the shape `GET /users/:id`
responds with). -/
structure UserObj where
  _id : String
  username : String
  email : String
  password : String
  favTeams : List Team
  following : List String
  followers : List String
  followingBars : List String
  deriving DecidableEq, Repr

/-- The database state: the users and bars collections, in storage order. -/
structure DB where
  users : List User
  bars : List Bar
  deriving DecidableEq, Repr

/-- Mongo `$addToSet`: append the element unless it is already present. -/
def addToSet (x : String) (xs : List String) : List String :=
  if x ∈ xs then xs else xs ++ [x]

/-- Apply `f` to every user document whose `_id` matches (a by-id update). -/
def DB.updateUser (db : DB) (id : String) (f : User → User) : DB :=
  { db with users := db.users.map fun u => if u._id == id then f u else u }

/-- Apply `f` to every bar document whose `_id` matches (a by-id update). -/
def DB.updateBar (db : DB) (id : String) (f : Bar → Bar) : DB :=
  { db with bars := db.bars.map fun b => if b._id == id then f b else b }

/-- What a handler hands to the framework: `res.json(v)` or `next(e)`. -/
inductive HResult (α : Type) where
  | json : α → HResult α
  | nextErr : Err → HResult α
  deriving DecidableEq, Repr

/-- What a `router.param` load middleware does with the request: attach
the loaded document and call `next()`, or fail the request via `next(e)`. -/
inductive LoadResult (α : Type) where
  | next : α → LoadResult α
  | nextErr : Err → LoadResult α
  deriving DecidableEq, Repr

/-- Modelled from the spec: `User.get` of the user model (user.model.js
is not under src).  §4.1: "`get(id)` — fails with NotFound when no
document matches". -/
def User.get (db : DB) (id : String) : Except Err User :=
  match db.users.find? (fun u => u._id == id) with
  | some u => Except.ok u
  | none => Except.error Err.notFound

/-- Modelled from the spec: `Bar.get` of the bar model (bar.model.js is
not under src).  §4.1: "`get(id)` — fails with NotFound when no document
matches". -/
def Bar.get (db : DB) (id : String) : Except Err Bar :=
  match db.bars.find? (fun b => b._id == id) with
  | some b => Except.ok b
  | none => Except.error Err.notFound

/-- Modelled from the spec: `User.list` of the user model (not under
src).  §4.1: "`list({limit, skip})` — returns an ordered page", in
storage order. -/
def User.list (db : DB) (limit skip : Nat) : List User :=
  (db.users.drop skip).take limit

/-- Modelled from the spec: `Bar.list` of the bar model (not under src).
§4.1: "`list({limit, skip})` — returns an ordered page", in storage
order. -/
def Bar.list (db : DB) (limit skip : Nat) : List Bar :=
  (db.bars.drop skip).take limit

/-- Modelled from the spec: `User.followUser` of the user model (not
under src).  §4.2: "idempotent add of targetId to actor.following AND
actor to target.followers; fails with NotFound if target does not exist;
fails (reported, not silently ignored) if actor == targetId".  A storage
failure of the write is injected through `fault`. -/
def User.followUser (db : DB) (actor : User) (targetId : String) (fault : Option Err) :
    Except Err DB :=
  if actor._id == targetId then Except.error Err.selfFollow
  else
    match User.get db targetId with
    | Except.error e => Except.error e
    | Except.ok _ =>
      match fault with
      | some e => Except.error e
      | none =>
        Except.ok
          ((db.updateUser actor._id fun u =>
              { u with following := addToSet targetId u.following }).updateUser targetId fun u =>
            { u with followers := addToSet actor._id u.followers })

/-- Modelled from the spec: `User.unfollowUser` of the user model (not
under src).  §4.2: "idempotent removal from both sides; removing a
non-present relation is a no-op, not an error".  A storage failure of
the write is injected through `fault`. -/
def User.unfollowUser (db : DB) (actor : User) (targetId : String) (fault : Option Err) :
    Except Err DB :=
  match fault with
  | some e => Except.error e
  | none =>
    Except.ok
      ((db.updateUser actor._id fun u =>
          { u with following := u.following.filter (fun i => i != targetId) }).updateUser targetId fun u =>
        { u with followers := u.followers.filter (fun i => i != actor._id) })

/-- Modelled from the spec: `User.addFavTeam` of the user model (not
under src).  §4.2: "single-sided set membership update on the user only
(no back-reference on Team)"; returns the updated user.  A storage
failure is injected through `fault`. -/
def User.addFavTeam (db : DB) (uid teamId : String) (fault : Option Err) :
    Except Err (DB × User) :=
  match fault with
  | some e => Except.error e
  | none =>
    let db' := db.updateUser uid fun u => { u with favTeams := addToSet teamId u.favTeams }
    match User.get db' uid with
    | Except.error e => Except.error e
    | Except.ok u => Except.ok (db', u)

/-- Modelled from the spec: `User.removeFavTeam` of the user model (not
under src).  §4.2: "single-sided set membership update on the user only";
returns the updated user.  A storage failure is injected through
`fault`. -/
def User.removeFavTeam (db : DB) (uid teamId : String) (fault : Option Err) :
    Except Err (DB × User) :=
  match fault with
  | some e => Except.error e
  | none =>
    let db' := db.updateUser uid fun u =>
      { u with favTeams := u.favTeams.filter (fun i => i != teamId) }
    match User.get db' uid with
    | Except.error e => Except.error e
    | Except.ok u => Except.ok (db', u)

/-- Modelled from the spec: `bar.addFollower(userId)` of the bar model
(not under src).  §4.2/§3: adds the user id to the bar's `followers`
set.  A storage failure is injected through `fault`. -/
def Bar.addFollower (db : DB) (bar : Bar) (uid : String) (fault : Option Err) :
    Except Err DB :=
  match fault with
  | some e => Except.error e
  | none =>
    Except.ok (db.updateBar bar._id fun b => { b with followers := addToSet uid b.followers })

/-- Modelled from the spec: `bar.removeFollower(userId)` of the bar
model (not under src).  §4.2: idempotent removal of the user id from the
bar's `followers` set.  A storage failure is injected through `fault`. -/
def Bar.removeFollower (db : DB) (bar : Bar) (uid : String) (fault : Option Err) :
    Except Err DB :=
  match fault with
  | some e => Except.error e
  | none =>
    Except.ok
      (db.updateBar bar._id fun b =>
        { b with followers := b.followers.filter (fun i => i != uid) })

/-- Modelled from the spec: `userDoc.followBar(barId)` of the user model
(not under src).  §4.2/§3: adds the bar id to the user's `followingBars`
set.  A storage failure is injected through `fault`. -/
def User.followBar (db : DB) (user : User) (barId : String) (fault : Option Err) :
    Except Err DB :=
  match fault with
  | some e => Except.error e
  | none =>
    Except.ok
      (db.updateUser user._id fun u =>
        { u with followingBars := addToSet barId u.followingBars })

/-- Modelled from the spec: `userDoc.unfollowBar(barId)` of the user
model (not under src).  §4.2: idempotent removal of the bar id from the
user's `followingBars` set.  A storage failure is injected through
`fault`. -/
def User.unfollowBar (db : DB) (user : User) (barId : String) (fault : Option Err) :
    Except Err DB :=
  match fault with
  | some e => Except.error e
  | none =>
    Except.ok
      (db.updateUser user._id fun u =>
        { u with followingBars := u.followingBars.filter (fun i => i != barId) })

/-- Modelled from the spec: `TeamService.populateTeams` (the team
service is not under src).  §3: "Team: external reference only; resolved
via a lookup service"; each favourite team id is expanded into a team
object by the external lookup, passed here as a parameter. -/
def TeamService.populateTeams (lookup : String → Team) (ids : List String) : List Team :=
  ids.map lookup

/-- Modelled from the spec: the fixed message of `ErrorMessages.ERROR_ON_FOLLOW_TEAM`
(the ErrorMessages helper is not under src); the exact wording is not
specified, only that it is a fixed user-facing message. -/
def ErrorMessages.ERROR_ON_FOLLOW_TEAM : String := "Error on following team"

/-- Modelled from the spec: the fixed message of `ErrorMessages.ERROR_ON_UNFOLLOW_TEAM`
(the ErrorMessages helper is not under src). -/
def ErrorMessages.ERROR_ON_UNFOLLOW_TEAM : String := "Error on unfollowing team"

/-- Modelled from the spec: the fixed message of `ErrorMessages.ERROR_ON_FOLLOW_USER`
(the ErrorMessages helper is not under src). -/
def ErrorMessages.ERROR_ON_FOLLOW_USER : String := "Error on following user"

/-- Modelled from the spec: the fixed message of `ErrorMessages.ERROR_ON_UNFOLLOW_USER`
(the ErrorMessages helper is not under src). -/
def ErrorMessages.ERROR_ON_UNFOLLOW_USER : String := "Error on unfollowing user"

/-- `httpStatus.BAD_REQUEST` of the http-status package. -/
def httpStatus.BAD_REQUEST : Nat := 400

/-! ## User controller (src/server/user/user.route.js) -/

/-- `load(req, res, next, id)`: resolve the `:userId` path parameter via
`User.get(id)`, attach the document to `req.queryUser` and call
`next()`, or fail the request with `next(e)`. -/
def UserCtrl.load (db : DB) (id : String) : LoadResult User :=
  match User.get db id with
  | Except.ok u => LoadResult.next u
  | Except.error e => LoadResult.nextErr e

/-- `get(req, res)`: populate the loaded user's `favTeams`, copy the
document with `toObject()`, overwrite the copy's `favTeams` with the
populated teams and respond with the copy.  The database is returned
unchanged: the handler performs no write. -/
def UserCtrl.get (db : DB) (lookup : String → Team) (queryUser : User) :
    HResult UserObj × DB :=
  let teams := TeamService.populateTeams lookup queryUser.favTeams
  let userObj : UserObj :=
    { _id := queryUser._id
      username := queryUser.username
      email := queryUser.email
      password := queryUser.password
      favTeams := teams
      following := queryUser.following
      followers := queryUser.followers
      followingBars := queryUser.followingBars }
  (HResult.json userObj, db)

/-- `update(req, res, next)`: overwrite `user.username` only when
`req.body.username` is truthy (present and non-empty), then
`user.save()`; respond with the saved user or forward the save error. -/
def UserCtrl.update (db : DB) (queryUser : User) (usernameBody : Option String)
    (fault : Option Err) : HResult User × DB :=
  let user :=
    match usernameBody with
    | some s => if s ≠ "" then { queryUser with username := s } else queryUser
    | none => queryUser
  match fault with
  | some e => (HResult.nextErr e, db)
  | none => (HResult.json user, db.updateUser queryUser._id fun _ => user)

/-- `list(req, res, next)`: `const { limit = 50, skip = 0 } = req.query`
— the defaults apply exactly when the query parameter is absent — then
`User.list({limit, skip})`. -/
def UserCtrl.list (db : DB) (limitQ skipQ : Option Nat) : HResult (List User) :=
  let limit := limitQ.getD 50
  let skip := skipQ.getD 0
  HResult.json (User.list db limit skip)

/-- `updateFavTeams(req, res, next)`: on `operation === "add"` run
`User.addFavTeam`, otherwise `User.removeFavTeam`; respond with the
updated user, wrapping any failure into a fixed `APIError`. -/
def UserCtrl.updateFavTeams (db : DB) (queryUser : User) (operation : Option String)
    (teamId : String) (fault : Option Err) : HResult User :=
  if operation == some "add" then
    match User.addFavTeam db queryUser._id teamId fault with
    | Except.ok (_, u) => HResult.json u
    | Except.error _ =>
      HResult.nextErr (Err.api ⟨ErrorMessages.ERROR_ON_FOLLOW_TEAM, httpStatus.BAD_REQUEST, true⟩)
  else
    match User.removeFavTeam db queryUser._id teamId fault with
    | Except.ok (_, u) => HResult.json u
    | Except.error _ =>
      HResult.nextErr (Err.api ⟨ErrorMessages.ERROR_ON_UNFOLLOW_TEAM, httpStatus.BAD_REQUEST, true⟩)

/-- `_followUser(user, userToBeFollowedId)`: `User.followUser` then
re-fetch the actor with `User.get(user._id)`; yields the new state and
the re-fetched document. -/
def UserCtrl._followUser (db : DB) (user : User) (userToBeFollowedId : String)
    (fault : Option Err) : Except Err (DB × User) :=
  match User.followUser db user userToBeFollowedId fault with
  | Except.error e => Except.error e
  | Except.ok db' =>
    match User.get db' user._id with
    | Except.error e => Except.error e
    | Except.ok u => Except.ok (db', u)

/-- `_unfollowUser(user, userToBeUnfollowedId)`: `User.unfollowUser`
then re-fetch the actor with `User.get(user._id)`. -/
def UserCtrl._unfollowUser (db : DB) (user : User) (userToBeUnfollowedId : String)
    (fault : Option Err) : Except Err (DB × User) :=
  match User.unfollowUser db user userToBeUnfollowedId fault with
  | Except.error e => Except.error e
  | Except.ok db' =>
    match User.get db' user._id with
    | Except.error e => Except.error e
    | Except.ok u => Except.ok (db', u)

/-- `updateFollowing(req, res, next)`: on `operation === "add"` run
`_followUser`, otherwise `_unfollowUser`; respond with the re-fetched
user, wrapping any failure into a fixed `APIError`. -/
def UserCtrl.updateFollowing (db : DB) (queryUser : User) (operation : Option String)
    (targetId : String) (fault : Option Err) : HResult User :=
  if operation == some "add" then
    match UserCtrl._followUser db queryUser targetId fault with
    | Except.ok (_, u) => HResult.json u
    | Except.error _ =>
      HResult.nextErr (Err.api ⟨ErrorMessages.ERROR_ON_FOLLOW_USER, httpStatus.BAD_REQUEST, true⟩)
  else
    match UserCtrl._unfollowUser db queryUser targetId fault with
    | Except.ok (_, u) => HResult.json u
    | Except.error _ =>
      HResult.nextErr (Err.api ⟨ErrorMessages.ERROR_ON_UNFOLLOW_USER, httpStatus.BAD_REQUEST, true⟩)

/-- `_followBar(userDoc, barId)`: `Bar.get(barId)`, then
`bar.addFollower(userDoc._id)`, then `userDoc.followBar(barId)`; any
error is re-thrown unchanged. -/
def UserCtrl._followBar (db : DB) (userDoc : User) (barId : String)
    (f1 f2 : Option Err) : Except Err DB :=
  match Bar.get db barId with
  | Except.error e => Except.error e
  | Except.ok bar =>
    match Bar.addFollower db bar userDoc._id f1 with
    | Except.error e => Except.error e
    | Except.ok db1 => User.followBar db1 userDoc barId f2

/-- `_unfollowBar(userDoc, barId)`: `Bar.get(barId)`, then
`bar.removeFollower(userDoc._id)`, then `userDoc.unfollowBar(barId)`;
any error is re-thrown unchanged. -/
def UserCtrl._unfollowBar (db : DB) (userDoc : User) (barId : String)
    (f1 f2 : Option Err) : Except Err DB :=
  match Bar.get db barId with
  | Except.error e => Except.error e
  | Except.ok bar =>
    match Bar.removeFollower db bar userDoc._id f1 with
    | Except.error e => Except.error e
    | Except.ok db1 => User.unfollowBar db1 userDoc barId f2

/-- `updateFollowingBars(req, res, next)`: on `operation === "add"` run
`_followBar`, otherwise `_unfollowBar`; await it, re-fetch the user and
respond, and on any error call `next(err)` with the error unchanged. -/
def UserCtrl.updateFollowingBars (db : DB) (queryUser : User) (operation : Option String)
    (barId : String) (f1 f2 : Option Err) : HResult User :=
  let promise :=
    if operation == some "add" then UserCtrl._followBar db queryUser barId f1 f2
    else UserCtrl._unfollowBar db queryUser barId f1 f2
  match promise with
  | Except.error err => HResult.nextErr err
  | Except.ok db' =>
    match User.get db' queryUser._id with
    | Except.error e => HResult.nextErr e
    | Except.ok u => HResult.json u

/-! ## Bar controller (src/unnamed/part_000) -/

/-- `load(req, res, next, id)` of the bar controller: resolve the
`:barId` path parameter via `Bar.get(id)`, attach the document to
`req.queryBar` and call `next()`, or fail the request with `next(e)`. -/
def BarCtrl.load (db : DB) (id : String) : LoadResult Bar :=
  match Bar.get db id with
  | Except.ok b => LoadResult.next b
  | Except.error e => LoadResult.nextErr e

/-- The body of `POST /bars`: name, placeId, latitude, longitude. -/
structure BarBody where
  name : String
  placeId : String
  latitude : Int
  longitude : Int
  deriving DecidableEq, Repr

/-- `saveBar(bar)`: set `bar.location = { type: "Point", coordinates:
[bar.longitude, bar.latitude] }`, build the document and `save()` it.
The save appends the new document to the collection under a fresh
storage-generated id `newId`; no uniqueness pre-check is made. -/
def BarCtrl.saveBar (db : DB) (body : BarBody) (newId : String) : Except Err (DB × Bar) :=
  let location : GeoPoint := { type := "Point", coordinates := [body.longitude, body.latitude] }
  let createdBar : Bar :=
    { _id := newId
      name := body.name
      placeId := body.placeId
      location := location
      followers := [] }
  Except.ok ({ db with bars := db.bars ++ [createdBar] }, createdBar)

/-- `create(req, res, next)` of the bar controller: `saveBar(req.body)`,
respond with the saved bar or forward the error. -/
def BarCtrl.create (db : DB) (body : BarBody) (newId : String) : HResult Bar × DB :=
  match BarCtrl.saveBar db body newId with
  | Except.ok (db', savedBar) => (HResult.json savedBar, db')
  | Except.error e => (HResult.nextErr e, db)

/-- `list(req, res, next)` of the bar controller:
`const { limit = 50, skip = 0 } = req.query`, then `Bar.list({limit, skip})`. -/
def BarCtrl.list (db : DB) (limitQ skipQ : Option Nat) : HResult (List Bar) :=
  let limit := limitQ.getD 50
  let skip := skipQ.getD 0
  HResult.json (Bar.list db limit skip)

/-! ## Concrete sample data for evaluations -/

/-- A sample user document with the given id and no relations. -/
def sampleUser (id : String) : User :=
  { _id := id, username := "u", email := "e@x.com", password := "p",
    favTeams := [], following := [], followers := [], followingBars := [] }

/-- A sample bar document with the given id and no followers. -/
def sampleBar (id : String) : Bar :=
  { _id := id, name := "Pub", placeId := "p1",
    location := { type := "Point", coordinates := [-73, 40] }, followers := [] }

/-- A sample database: users u1 and u2, bar b1, no relations. -/
def sampleDB : DB :=
  { users := [sampleUser "u1", sampleUser "u2"], bars := [sampleBar "b1"] }

/-- The user u1 of `sampleDB2`: already follows u2 and bar b1. -/
def sampleUserA : User :=
  { sampleUser "u1" with following := ["u2"], followingBars := ["b1"] }

/-- A sample database in which u1 already follows u2 and bar b1. -/
def sampleDB2 : DB :=
  { users := [sampleUserA, { sampleUser "u2" with followers := ["u1"] }],
    bars := [{ sampleBar "b1" with followers := ["u1"] }] }

/-- The state of `sampleDB` after u1 followed bar b1. -/
def sampleDBAfterFollowBar : DB :=
  { users := [{ sampleUser "u1" with followingBars := ["b1"] }, sampleUser "u2"],
    bars := [{ sampleBar "b1" with followers := ["u1"] }] }

/-- The user u1 of `sampleDB2` after unfollowing u2. -/
def sampleUserAUnfollowed : User :=
  { sampleUser "u1" with following := [], followingBars := ["b1"] }

/-- The state of `sampleDB2` after u1 unfollowed u2. -/
def sampleDB2AfterUnfollow : DB :=
  { users := [sampleUserAUnfollowed, { sampleUser "u2" with followers := [] }],
    bars := [{ sampleBar "b1" with followers := ["u1"] }] }

/-- A sample database with unrelated relations present: u1 follows u2
and bar b1, and u2 follows bar b2. -/
def sampleDB3 : DB :=
  { users := [sampleUserA,
              { sampleUser "u2" with followers := ["u1"], followingBars := ["b2"] }],
    bars := [{ sampleBar "b1" with followers := ["u1"] },
             { sampleBar "b2" with followers := ["u2"] }] }

/-- The state of `sampleDB2` after u1 unfollowed bar b1. -/
def sampleDB2AfterUnfollowBar : DB :=
  { users := [{ sampleUser "u1" with following := ["u2"], followingBars := [] },
              { sampleUser "u2" with followers := ["u1"] }],
    bars := [{ sampleBar "b1" with followers := [] }] }

/-! ## Helper lemmas -/

/-- An element is a member of the set it was just added to. -/
theorem mem_addToSet_self (x : String) (xs : List String) : x ∈ addToSet x xs := by
  unfold addToSet
  by_cases h : x ∈ xs <;> simp [h]

/-- Searching after a by-id update is searching first and updating the
hit, provided the update preserves the predicate. -/
theorem find?_map_update {α : Type} (p : α → Bool) (f : α → α) (xs : List α)
    (hf : ∀ a, p (f a) = p a) :
    (xs.map fun a => if p a then f a else a).find? p = (xs.find? p).map f := by
  induction xs with
  | nil => rfl
  | cons x xs ih =>
    by_cases h : p x
    · simp [List.find?_cons, h, hf]
    · simp [List.find?_cons, h, hf, ih]

/-- A successful by-id user lookup returns a document with that id. -/
theorem userGet_ok_id {db : DB} {id : String} {u : User}
    (h : User.get db id = Except.ok u) : u._id = id := by
  unfold User.get at h
  cases hf : db.users.find? (fun v => v._id == id) with
  | none => rw [hf] at h; cases h
  | some v =>
    rw [hf] at h
    have hp := List.find?_some hf
    cases h
    exact eq_of_beq hp

/-- A successful by-id bar lookup returns a document with that id. -/
theorem barGet_ok_id {db : DB} {id : String} {b : Bar}
    (h : Bar.get db id = Except.ok b) : b._id = id := by
  unfold Bar.get at h
  cases hf : db.bars.find? (fun v => v._id == id) with
  | none => rw [hf] at h; cases h
  | some v =>
    rw [hf] at h
    have hp := List.find?_some hf
    cases h
    exact eq_of_beq hp

/-- Looking a user up after an id-preserving update of the same id. -/
theorem userGet_after_updateUser (db : DB) (id : String) (f : User → User)
    (hf : ∀ u, (f u)._id = u._id) :
    User.get (db.updateUser id f) id = (User.get db id).map f := by
  unfold User.get DB.updateUser
  rw [find?_map_update (fun u => u._id == id) f db.users
    (fun a => by show ((f a)._id == id) = (a._id == id); rw [hf a])]
  cases db.users.find? (fun u => u._id == id) <;> rfl

/-- Looking a bar up after an id-preserving update of the same id. -/
theorem barGet_after_updateBar (db : DB) (id : String) (g : Bar → Bar)
    (hg : ∀ b, (g b)._id = b._id) :
    Bar.get (db.updateBar id g) id = (Bar.get db id).map g := by
  unfold Bar.get DB.updateBar
  rw [find?_map_update (fun b => b._id == id) g db.bars
    (fun a => by show ((g a)._id == id) = (a._id == id); rw [hg a])]
  cases db.bars.find? (fun b => b._id == id) <;> rfl

/-- A bar update leaves user lookups unchanged. -/
theorem userGet_after_updateBar (db : DB) (i : String) (g : Bar → Bar) (id : String) :
    User.get (db.updateBar i g) id = User.get db id := rfl

/-- A user update leaves bar lookups unchanged. -/
theorem barGet_after_updateUser (db : DB) (i : String) (f : User → User) (id : String) :
    Bar.get (db.updateUser i f) id = Bar.get db id := rfl

/-- Removing an element twice is removing it once. -/
theorem filter_ne_idem (x : String) (l : List String) :
    (l.filter fun i => i != x).filter (fun i => i != x) = l.filter fun i => i != x := by
  rw [List.filter_filter]
  simp

/-- Removing an element that is not present leaves the list unchanged. -/
theorem filter_ne_of_not_mem (x : String) (l : List String) (h : x ∉ l) :
    l.filter (fun i => i != x) = l :=
  List.filter_eq_self.mpr fun a ha => bne_iff_ne.mpr (fun e => h (e ▸ ha))

/-- A by-id map is idempotent when the per-document update is. -/
theorem map_update_idem {α : Type} (p : α → Bool) (f : α → α) (xs : List α)
    (hp : ∀ a, p (f a) = p a) (hf : ∀ a, f (f a) = f a) :
    ((xs.map fun a => if p a then f a else a).map fun a => if p a then f a else a) =
      xs.map fun a => if p a then f a else a := by
  induction xs with
  | nil => rfl
  | cons x xs ih =>
    simp only [List.map_cons, ih]
    by_cases h : p x
    · simp [h, hp, hf]
    · simp [h]

/-- A by-id map whose per-document update fixes every present document
that satisfies the predicate is the identity. -/
theorem map_update_noop {α : Type} (p : α → Bool) (f : α → α) :
    ∀ xs : List α, (∀ a ∈ xs, p a = true → f a = a) →
      (xs.map fun a => if p a then f a else a) = xs := by
  intro xs
  induction xs with
  | nil => intro _; rfl
  | cons x xs ih =>
    intro h
    simp only [List.map_cons]
    rw [ih (fun a ha hp => h a (List.mem_cons_of_mem x ha) hp)]
    by_cases hp : p x
    · simp [hp, h x (List.mem_cons_self x xs) hp]
    · simp [hp]

/-- A by-id user update is idempotent when the per-document update is
idempotent and id-preserving. -/
theorem DB.updateUser_idem (db : DB) (i : String) (f : User → User)
    (hid : ∀ u, (f u)._id = u._id) (hf : ∀ u, f (f u) = f u) :
    (db.updateUser i f).updateUser i f = db.updateUser i f := by
  unfold DB.updateUser
  congr 1
  exact map_update_idem (fun u => u._id == i) f db.users
    (fun a => by show ((f a)._id == i) = (a._id == i); rw [hid a]) hf

/-- A by-id bar update is idempotent when the per-document update is
idempotent and id-preserving. -/
theorem DB.updateBar_idem (db : DB) (i : String) (g : Bar → Bar)
    (hid : ∀ b, (g b)._id = b._id) (hg : ∀ b, g (g b) = g b) :
    (db.updateBar i g).updateBar i g = db.updateBar i g := by
  unfold DB.updateBar
  congr 1
  exact map_update_idem (fun b => b._id == i) g db.bars
    (fun a => by show ((g a)._id == i) = (a._id == i); rw [hid a]) hg

/-- User updates and bar updates act on disjoint collections, so they
commute. -/
theorem DB.updateUser_updateBar_comm (db : DB) (i j : String) (f : User → User)
    (g : Bar → Bar) :
    (db.updateUser i f).updateBar j g = (db.updateBar j g).updateUser i f := rfl

/-- A by-id user update that fixes every stored user carrying the
looked-up id is the identity. -/
theorem DB.updateUser_noop (db : DB) (i : String) (f : User → User)
    (h : ∀ u ∈ db.users, u._id = i → f u = u) : db.updateUser i f = db := by
  unfold DB.updateUser
  rw [map_update_noop (fun u => u._id == i) f db.users
    (fun u hu hp => h u hu (eq_of_beq hp))]

/-- A by-id bar update that fixes every stored bar carrying the
looked-up id is the identity. -/
theorem DB.updateBar_noop (db : DB) (i : String) (g : Bar → Bar)
    (h : ∀ b ∈ db.bars, b._id = i → g b = b) : db.updateBar i g = db := by
  unfold DB.updateBar
  rw [map_update_noop (fun b => b._id == i) g db.bars
    (fun b hb hp => h b hb (eq_of_beq hp))]

/-- The two-sided state transform of `User.unfollowUser` is idempotent. -/
theorem unfollow_state_idem (db : DB) (a t : String) :
    ((((db.updateUser a fun u =>
            { u with following := u.following.filter (fun i => i != t) }).updateUser t fun u =>
          { u with followers := u.followers.filter (fun i => i != a) }).updateUser a fun u =>
        { u with following := u.following.filter (fun i => i != t) }).updateUser t fun u =>
      { u with followers := u.followers.filter (fun i => i != a) }) =
    (db.updateUser a fun u =>
        { u with following := u.following.filter (fun i => i != t) }).updateUser t fun u =>
      { u with followers := u.followers.filter (fun i => i != a) } := by
  unfold DB.updateUser
  congr 1
  induction db.users with
  | nil => rfl
  | cons x xs ih =>
    simp only [List.map_cons, ih]
    by_cases h1 : x._id == a <;> by_cases h2 : x._id == t <;>
      simp [h1, h2, filter_ne_idem]

/-! ## Claim theorems -/

/-- C1: `followUser(A, A)` fails with a reported error rather than
succeeding or being silently ignored: the model operation (modelled from
the spec) rejects the self-follow, and the `updateFollowing` handler of
the source forwards the failure to the centralized responder as a typed
error — for every database, every actor and every injected storage
outcome. -/
theorem followUser_self_follow_reported :
    (∀ (db : DB) (actor : User) (fault : Option Err),
        User.followUser db actor actor._id fault = Except.error Err.selfFollow) ∧
    (∀ (db : DB) (queryUser : User) (fault : Option Err),
        UserCtrl.updateFollowing db queryUser (some "add") queryUser._id fault =
          HResult.nextErr
            (Err.api ⟨ErrorMessages.ERROR_ON_FOLLOW_USER, httpStatus.BAD_REQUEST, true⟩)) := by
  constructor
  · intro db actor fault
    unfold User.followUser
    simp
  · intro db queryUser fault
    unfold UserCtrl.updateFollowing UserCtrl._followUser User.followUser
    simp

/-- C4: when no document matches an id, the by-id lookup fails with
NotFound and the path-parameter load middleware (for users and for bars)
fails the whole request with that NotFound error instead of proceeding. -/
theorem load_fails_notFound :
    (∀ (db : DB) (id : String),
        db.users.find? (fun u => u._id == id) = none →
          User.get db id = Except.error Err.notFound ∧
          UserCtrl.load db id = LoadResult.nextErr Err.notFound) ∧
    (∀ (db : DB) (id : String),
        db.bars.find? (fun b => b._id == id) = none →
          Bar.get db id = Except.error Err.notFound ∧
          BarCtrl.load db id = LoadResult.nextErr Err.notFound) := by
  constructor
  · intro db id h
    have hg : User.get db id = Except.error Err.notFound := by unfold User.get; rw [h]
    exact ⟨hg, by unfold UserCtrl.load; rw [hg]⟩
  · intro db id h
    have hg : Bar.get db id = Except.error Err.notFound := by unfold Bar.get; rw [h]
    exact ⟨hg, by unfold BarCtrl.load; rw [hg]⟩

theorem load_fails_notFound_witness :
    (User.get sampleDB "nobody" = Except.error Err.notFound ∧
      UserCtrl.load sampleDB "nobody" = LoadResult.nextErr Err.notFound) ∧
    (Bar.get sampleDB "nobody" = Except.error Err.notFound ∧
      BarCtrl.load sampleDB "nobody" = LoadResult.nextErr Err.notFound) :=
  ⟨load_fails_notFound.1 sampleDB "nobody" (by decide),
   load_fails_notFound.2 sampleDB "nobody" (by decide)⟩

/-- C6: for both list handlers, an absent `limit` query parameter
defaults the page size to 50 and an absent `skip` parameter defaults the
offset to 0. -/
theorem list_pagination_defaults :
    (∀ db : DB, UserCtrl.list db none none = HResult.json (db.users.take 50)) ∧
    (∀ (db : DB) (skipQ : Option Nat),
        UserCtrl.list db none skipQ = HResult.json (User.list db 50 (skipQ.getD 0))) ∧
    (∀ (db : DB) (limitQ : Option Nat),
        UserCtrl.list db limitQ none = HResult.json (User.list db (limitQ.getD 50) 0)) ∧
    (∀ db : DB, BarCtrl.list db none none = HResult.json (db.bars.take 50)) ∧
    (∀ (db : DB) (skipQ : Option Nat),
        BarCtrl.list db none skipQ = HResult.json (Bar.list db 50 (skipQ.getD 0))) ∧
    (∀ (db : DB) (limitQ : Option Nat),
        BarCtrl.list db limitQ none = HResult.json (Bar.list db (limitQ.getD 50) 0)) := by
  refine ⟨fun db => ?_, fun db s => rfl, fun db l => rfl,
          fun db => ?_, fun db s => rfl, fun db l => rfl⟩
  · simp [UserCtrl.list, User.list]
  · simp [BarCtrl.list, Bar.list]

/-- C7: the single-user GET handler responds with a copy of the stored
user whose `favTeams` ids are expanded into team objects by the lookup
service, every other field equal to the stored one, and the database
state is returned unchanged — the populated copy is never persisted. -/
theorem get_user_populates_without_persisting (db : DB) (lookup : String → Team)
    (queryUser : User) :
    UserCtrl.get db lookup queryUser =
      (HResult.json
        { _id := queryUser._id
          username := queryUser.username
          email := queryUser.email
          password := queryUser.password
          favTeams := TeamService.populateTeams lookup queryUser.favTeams
          following := queryUser.following
          followers := queryUser.followers
          followingBars := queryUser.followingBars }, db) := rfl

/-- C8: for every create-bar body, the persisted document carries the
geolocation point composed as `[longitude, latitude]` and is appended to
the collection unconditionally — the statement holds for every prior
database state, in particular one already containing a bar with the same
name or placeId, so no uniqueness pre-check is made in the handler. -/
theorem create_bar_geo_and_unconditional (db : DB) (body : BarBody) (newId : String) :
    BarCtrl.create db body newId =
      (HResult.json
        { _id := newId, name := body.name, placeId := body.placeId,
          location := { type := "Point", coordinates := [body.longitude, body.latitude] },
          followers := [] },
       { db with bars := db.bars ++
          [{ _id := newId, name := body.name, placeId := body.placeId,
             location := { type := "Point", coordinates := [body.longitude, body.latitude] },
             followers := [] }] }) := rfl

/-- C9: in all three operation-dispatching handlers, any `operation`
body value other than the exact string "add" — a misspelling, the empty
string, or an absent field — behaves exactly as the remove operation; it
is not rejected. -/
theorem non_add_operation_runs_remove (db : DB) (queryUser : User)
    (operation : Option String) (teamId targetId barId : String)
    (fault f1 f2 : Option Err) (h : operation ≠ some "add") :
    UserCtrl.updateFavTeams db queryUser operation teamId fault =
        UserCtrl.updateFavTeams db queryUser (some "remove") teamId fault ∧
    UserCtrl.updateFollowing db queryUser operation targetId fault =
        UserCtrl.updateFollowing db queryUser (some "remove") targetId fault ∧
    UserCtrl.updateFollowingBars db queryUser operation barId f1 f2 =
        UserCtrl.updateFollowingBars db queryUser (some "remove") barId f1 f2 := by
  have hb : (operation == some "add") = false := beq_eq_false_iff_ne.mpr h
  refine ⟨?_, ?_, ?_⟩
  · unfold UserCtrl.updateFavTeams; simp [hb]
  · unfold UserCtrl.updateFollowing; simp [hb]
  · unfold UserCtrl.updateFollowingBars; simp [hb]

theorem non_add_operation_runs_remove_witness :
    UserCtrl.updateFavTeams sampleDB (sampleUser "u1") (some "Add") "t1" none =
        UserCtrl.updateFavTeams sampleDB (sampleUser "u1") (some "remove") "t1" none ∧
    UserCtrl.updateFollowing sampleDB (sampleUser "u1") (some "Add") "u2" none =
        UserCtrl.updateFollowing sampleDB (sampleUser "u1") (some "remove") "u2" none ∧
    UserCtrl.updateFollowingBars sampleDB (sampleUser "u1") (some "Add") "b1" none none =
        UserCtrl.updateFollowingBars sampleDB (sampleUser "u1") (some "remove") "b1" none none :=
  non_add_operation_runs_remove sampleDB (sampleUser "u1") (some "Add") "t1" "u2" "b1"
    none none none (by decide)

/-- C10: the user update handler with an absent or empty (falsy)
`username` body still saves and returns the user with every field
unchanged; with a non-empty `username` it modifies only the username
field, all other fields preserved by the record update. -/
theorem update_username_frame :
    (∀ (db : DB) (queryUser : User),
        UserCtrl.update db queryUser none none =
          (HResult.json queryUser, db.updateUser queryUser._id fun _ => queryUser)) ∧
    (∀ (db : DB) (queryUser : User),
        UserCtrl.update db queryUser (some "") none =
          (HResult.json queryUser, db.updateUser queryUser._id fun _ => queryUser)) ∧
    (∀ (db : DB) (queryUser : User) (s : String), s ≠ "" →
        UserCtrl.update db queryUser (some s) none =
          (HResult.json { queryUser with username := s },
           db.updateUser queryUser._id fun _ => { queryUser with username := s })) := by
  refine ⟨fun db u => rfl, fun db u => ?_, fun db u s hs => ?_⟩
  · unfold UserCtrl.update; simp
  · unfold UserCtrl.update; simp [hs]

theorem update_username_frame_witness :
    UserCtrl.update sampleDB (sampleUser "u1") (some "bob") none =
      (HResult.json { sampleUser "u1" with username := "bob" },
       sampleDB.updateUser (sampleUser "u1")._id fun _ =>
        { sampleUser "u1" with username := "bob" }) :=
  update_username_frame.2.2 sampleDB (sampleUser "u1") "bob" (by decide)

/-- Success shape of `User.unfollowUser`: with no storage fault it
always succeeds with the two-sided removal applied. -/
theorem unfollowUser_ok_eq (db : DB) (actor : User) (t : String) :
    User.unfollowUser db actor t none =
      Except.ok
        ((db.updateUser actor._id fun u =>
            { u with following := u.following.filter (fun i => i != t) }).updateUser t fun u =>
          { u with followers := u.followers.filter (fun i => i != actor._id) }) := rfl

/-- `_unfollowUser` after a successful model operation: it re-fetches
the actor from the new state. -/
theorem _unfollowUser_eq (db : DB) (user : User) (tid : String) (db' : DB)
    (h : User.unfollowUser db user tid none = Except.ok db') :
    UserCtrl._unfollowUser db user tid none =
      (match User.get db' user._id with
        | Except.error e => Except.error e
        | Except.ok u => Except.ok (db', u)) := by
  unfold UserCtrl._unfollowUser
  rw [h]

/-- Success shape of `_followBar` when the bar exists and no fault is
injected. -/
theorem _followBar_ok (db : DB) (userDoc : User) (barId : String) (bar : Bar)
    (hb : Bar.get db barId = Except.ok bar) :
    UserCtrl._followBar db userDoc barId none none =
      Except.ok
        ((db.updateBar bar._id fun b =>
            { b with followers := addToSet userDoc._id b.followers }).updateUser
          userDoc._id fun u =>
            { u with followingBars := addToSet barId u.followingBars }) := by
  unfold UserCtrl._followBar
  rw [hb]
  rfl

/-- Success shape of `_unfollowBar` when the bar exists and no fault is
injected. -/
theorem _unfollowBar_ok (db : DB) (userDoc : User) (barId : String) (bar : Bar)
    (hb : Bar.get db barId = Except.ok bar) :
    UserCtrl._unfollowBar db userDoc barId none none =
      Except.ok
        ((db.updateBar bar._id fun b =>
            { b with followers := b.followers.filter (fun i => i != userDoc._id) }).updateUser
          userDoc._id fun u =>
            { u with followingBars := u.followingBars.filter (fun i => i != barId) }) := by
  unfold UserCtrl._unfollowBar
  rw [hb]
  rfl

/-- C3 counterexample: on a failing sub-update, the bar-follow handler
`updateFollowingBars` forwards the raw underlying storage error itself
to the responder (`next(err)`), not a typed application error with a
fixed message and status — refuting the claim for this handler. -/
theorem bar_follow_raw_error_counterexample :
    UserCtrl.updateFollowingBars sampleDB (sampleUser "u1") (some "add") "b1"
        (some (Err.storage "underlying storage failure")) none =
      HResult.nextErr (Err.storage "underlying storage failure") ∧
    Err.isApi (Err.storage "underlying storage failure") = false := by
  exact ⟨rfl, rfl⟩

/-- C3 (amended): the favourite-team and follow-user handlers wrap every
failure of their domain operation into a typed application error with a
fixed message and the fixed BAD_REQUEST status, whatever the underlying
error was; the bar-follow handler `updateFollowingBars` does not wrap —
it forwards the underlying error unchanged to the centralized
responder. -/
theorem handlers_error_wrapping_amended :
    (∀ (db : DB) (queryUser : User) (teamId : String) (fault : Option Err) (e : Err),
        User.addFavTeam db queryUser._id teamId fault = Except.error e →
          UserCtrl.updateFavTeams db queryUser (some "add") teamId fault =
            HResult.nextErr
              (Err.api ⟨ErrorMessages.ERROR_ON_FOLLOW_TEAM, httpStatus.BAD_REQUEST, true⟩)) ∧
    (∀ (db : DB) (queryUser : User) (operation : Option String) (teamId : String)
        (fault : Option Err) (e : Err), operation ≠ some "add" →
        User.removeFavTeam db queryUser._id teamId fault = Except.error e →
          UserCtrl.updateFavTeams db queryUser operation teamId fault =
            HResult.nextErr
              (Err.api ⟨ErrorMessages.ERROR_ON_UNFOLLOW_TEAM, httpStatus.BAD_REQUEST, true⟩)) ∧
    (∀ (db : DB) (queryUser : User) (targetId : String) (fault : Option Err) (e : Err),
        UserCtrl._followUser db queryUser targetId fault = Except.error e →
          UserCtrl.updateFollowing db queryUser (some "add") targetId fault =
            HResult.nextErr
              (Err.api ⟨ErrorMessages.ERROR_ON_FOLLOW_USER, httpStatus.BAD_REQUEST, true⟩)) ∧
    (∀ (db : DB) (queryUser : User) (operation : Option String) (targetId : String)
        (fault : Option Err) (e : Err), operation ≠ some "add" →
        UserCtrl._unfollowUser db queryUser targetId fault = Except.error e →
          UserCtrl.updateFollowing db queryUser operation targetId fault =
            HResult.nextErr
              (Err.api ⟨ErrorMessages.ERROR_ON_UNFOLLOW_USER, httpStatus.BAD_REQUEST, true⟩)) ∧
    (∀ (db : DB) (queryUser : User) (barId : String) (f1 f2 : Option Err) (e : Err),
        UserCtrl._followBar db queryUser barId f1 f2 = Except.error e →
          UserCtrl.updateFollowingBars db queryUser (some "add") barId f1 f2 =
            HResult.nextErr e) ∧
    (∀ (db : DB) (queryUser : User) (operation : Option String) (barId : String)
        (f1 f2 : Option Err) (e : Err), operation ≠ some "add" →
        UserCtrl._unfollowBar db queryUser barId f1 f2 = Except.error e →
          UserCtrl.updateFollowingBars db queryUser operation barId f1 f2 =
            HResult.nextErr e) := by
  refine ⟨?_, ?_, ?_, ?_, ?_, ?_⟩
  · intro db u teamId fault e h
    unfold UserCtrl.updateFavTeams
    simp [h]
  · intro db u op teamId fault e hop h
    unfold UserCtrl.updateFavTeams
    simp [beq_eq_false_iff_ne.mpr hop, h]
  · intro db u targetId fault e h
    unfold UserCtrl.updateFollowing
    simp [h]
  · intro db u op targetId fault e hop h
    unfold UserCtrl.updateFollowing
    simp [beq_eq_false_iff_ne.mpr hop, h]
  · intro db u barId f1 f2 e h
    unfold UserCtrl.updateFollowingBars
    simp [h]
  · intro db u op barId f1 f2 e hop h
    unfold UserCtrl.updateFollowingBars
    simp [beq_eq_false_iff_ne.mpr hop, h]

theorem handlers_error_wrapping_amended_witness :
    (UserCtrl.updateFavTeams sampleDB (sampleUser "u1") (some "add") "t1"
        (some (Err.storage "boom")) =
      HResult.nextErr
        (Err.api ⟨ErrorMessages.ERROR_ON_FOLLOW_TEAM, httpStatus.BAD_REQUEST, true⟩)) ∧
    (UserCtrl.updateFavTeams sampleDB (sampleUser "u1") (some "remove") "t1"
        (some (Err.storage "boom")) =
      HResult.nextErr
        (Err.api ⟨ErrorMessages.ERROR_ON_UNFOLLOW_TEAM, httpStatus.BAD_REQUEST, true⟩)) ∧
    (UserCtrl.updateFollowing sampleDB (sampleUser "u1") (some "add") "u2"
        (some (Err.storage "boom")) =
      HResult.nextErr
        (Err.api ⟨ErrorMessages.ERROR_ON_FOLLOW_USER, httpStatus.BAD_REQUEST, true⟩)) ∧
    (UserCtrl.updateFollowing sampleDB (sampleUser "u1") (some "remove") "u2"
        (some (Err.storage "boom")) =
      HResult.nextErr
        (Err.api ⟨ErrorMessages.ERROR_ON_UNFOLLOW_USER, httpStatus.BAD_REQUEST, true⟩)) ∧
    (UserCtrl.updateFollowingBars sampleDB (sampleUser "u1") (some "add") "b1"
        (some (Err.storage "boom")) none = HResult.nextErr (Err.storage "boom")) ∧
    (UserCtrl.updateFollowingBars sampleDB (sampleUser "u1") (some "remove") "b1"
        (some (Err.storage "boom")) none = HResult.nextErr (Err.storage "boom")) :=
  ⟨handlers_error_wrapping_amended.1 sampleDB (sampleUser "u1") "t1"
      (some (Err.storage "boom")) (Err.storage "boom") rfl,
   handlers_error_wrapping_amended.2.1 sampleDB (sampleUser "u1") (some "remove") "t1"
      (some (Err.storage "boom")) (Err.storage "boom") (by decide) rfl,
   handlers_error_wrapping_amended.2.2.1 sampleDB (sampleUser "u1") "u2"
      (some (Err.storage "boom")) (Err.storage "boom") rfl,
   handlers_error_wrapping_amended.2.2.2.1 sampleDB (sampleUser "u1") (some "remove") "u2"
      (some (Err.storage "boom")) (Err.storage "boom") (by decide) rfl,
   handlers_error_wrapping_amended.2.2.2.2.1 sampleDB (sampleUser "u1") "b1"
      (some (Err.storage "boom")) none (Err.storage "boom") rfl,
   handlers_error_wrapping_amended.2.2.2.2.2 sampleDB (sampleUser "u1") (some "remove") "b1"
      (some (Err.storage "boom")) none (Err.storage "boom") (by decide) rfl⟩

/-- C2: whenever `_followBar` succeeds, the resulting state holds the
bar id in the (re-fetched) user's `followingBars` and the user id in the
(re-fetched) bar's `followers`; and whenever either of the two
sub-updates fails (any injected fault), the `updateFollowingBars`
handler reports the operation as failed to the caller through the error
responder. -/
theorem followBar_symmetry_and_failure_reported :
    (∀ (db : DB) (userDoc : User) (barId : String) (f1 f2 : Option Err) (db' : DB),
        UserCtrl._followBar db userDoc barId f1 f2 = Except.ok db' →
          (∀ u : User, User.get db' userDoc._id = Except.ok u → barId ∈ u.followingBars) ∧
          (∀ b : Bar, Bar.get db' barId = Except.ok b → userDoc._id ∈ b.followers)) ∧
    (∀ (db : DB) (queryUser : User) (barId : String) (f1 f2 : Option Err),
        f1.isSome ∨ f2.isSome →
          ∃ e, UserCtrl.updateFollowingBars db queryUser (some "add") barId f1 f2 =
            HResult.nextErr e) := by
  constructor
  · intro db userDoc barId f1 f2 db' h
    cases hb : Bar.get db barId with
    | error e =>
      have he : UserCtrl._followBar db userDoc barId f1 f2 = Except.error e := by
        unfold UserCtrl._followBar; rw [hb]
      rw [he] at h
      exact Except.noConfusion h
    | ok bar =>
      cases f1 with
      | some e =>
        have he : UserCtrl._followBar db userDoc barId (some e) f2 = Except.error e := by
          unfold UserCtrl._followBar; rw [hb]; rfl
        rw [he] at h
        exact Except.noConfusion h
      | none =>
        cases f2 with
        | some e =>
          have he : UserCtrl._followBar db userDoc barId none (some e) = Except.error e := by
            unfold UserCtrl._followBar; rw [hb]; rfl
          rw [he] at h
          exact Except.noConfusion h
        | none =>
          rw [_followBar_ok db userDoc barId bar hb] at h
          injection h with h'
          subst h'
          have hbid : bar._id = barId := barGet_ok_id hb
          subst hbid
          constructor
          · intro u hu
            rw [userGet_after_updateUser
              (db.updateBar bar._id fun b =>
                { b with followers := addToSet userDoc._id b.followers })
              userDoc._id
              (fun u => { u with followingBars := addToSet bar._id u.followingBars })
              (fun u => rfl)] at hu
            rw [userGet_after_updateBar] at hu
            cases hg : User.get db userDoc._id with
            | error e => rw [hg] at hu; exact Except.noConfusion hu
            | ok u0 =>
              rw [hg] at hu
              dsimp only [Except.map] at hu
              injection hu with h2
              subst h2
              exact mem_addToSet_self bar._id u0.followingBars
          · intro b hbb
            rw [barGet_after_updateUser] at hbb
            rw [barGet_after_updateBar db bar._id
              (fun b => { b with followers := addToSet userDoc._id b.followers })
              (fun b => rfl)] at hbb
            rw [hb] at hbb
            dsimp only [Except.map] at hbb
            injection hbb with h2
            subst h2
            exact mem_addToSet_self userDoc._id bar.followers
  · intro db queryUser barId f1 f2 hsome
    have hrun : UserCtrl.updateFollowingBars db queryUser (some "add") barId f1 f2 =
        (match UserCtrl._followBar db queryUser barId f1 f2 with
          | Except.error err => HResult.nextErr err
          | Except.ok db' =>
            match User.get db' queryUser._id with
            | Except.error e => HResult.nextErr e
            | Except.ok u => HResult.json u) := rfl
    cases hb : Bar.get db barId with
    | error e =>
      refine ⟨e, ?_⟩
      rw [hrun]
      have he : UserCtrl._followBar db queryUser barId f1 f2 = Except.error e := by
        unfold UserCtrl._followBar; rw [hb]
      rw [he]
    | ok bar =>
      cases f1 with
      | some e =>
        refine ⟨e, ?_⟩
        rw [hrun]
        have he : UserCtrl._followBar db queryUser barId (some e) f2 = Except.error e := by
          unfold UserCtrl._followBar; rw [hb]; rfl
        rw [he]
      | none =>
        cases f2 with
        | some e =>
          refine ⟨e, ?_⟩
          rw [hrun]
          have he : UserCtrl._followBar db queryUser barId none (some e) = Except.error e := by
            unfold UserCtrl._followBar; rw [hb]; rfl
          rw [he]
        | none => simp at hsome

theorem followBar_symmetry_witness :
    "b1" ∈ ({ sampleUser "u1" with followingBars := ["b1"] } : User).followingBars ∧
    "u1" ∈ ({ sampleBar "b1" with followers := ["u1"] } : Bar).followers ∧
    ∃ e, UserCtrl.updateFollowingBars sampleDB (sampleUser "u1") (some "add") "b1"
        (some (Err.storage "w")) none = HResult.nextErr e := by
  have h := followBar_symmetry_and_failure_reported
  have h1 := h.1 sampleDB (sampleUser "u1") "b1" none none sampleDBAfterFollowBar rfl
  exact ⟨h1.1 _ rfl, h1.2 _ rfl,
    h.2 sampleDB (sampleUser "u1") "b1" (some (Err.storage "w")) none (Or.inl (by decide))⟩

/-- The two-sided state transform of `_unfollowBar` (remove the user
from the bar's followers, remove the bar from the user's followingBars)
is idempotent. -/
theorem unfollowBar_state_idem (db : DB) (a bid : String) :
    ((((db.updateBar bid fun b =>
            { b with followers := b.followers.filter (fun i => i != a) }).updateUser a fun u =>
          { u with followingBars := u.followingBars.filter (fun i => i != bid) }).updateBar bid fun b =>
        { b with followers := b.followers.filter (fun i => i != a) }).updateUser a fun u =>
      { u with followingBars := u.followingBars.filter (fun i => i != bid) }) =
    (db.updateBar bid fun b =>
        { b with followers := b.followers.filter (fun i => i != a) }).updateUser a fun u =>
      { u with followingBars := u.followingBars.filter (fun i => i != bid) } := by
  rw [DB.updateUser_updateBar_comm]
  rw [DB.updateBar_idem db bid
    (fun b => { b with followers := b.followers.filter (fun i => i != a) })
    (fun b => rfl)
    (fun b => congrArg (fun l => ({ b with followers := l } : Bar))
      (filter_ne_idem a b.followers))]
  rw [DB.updateUser_idem (db.updateBar bid fun b =>
      { b with followers := b.followers.filter (fun i => i != a) }) a
    (fun u => { u with followingBars := u.followingBars.filter (fun i => i != bid) })
    (fun u => rfl)
    (fun u => congrArg (fun l => ({ u with followingBars := l } : User))
      (filter_ne_idem bid u.followingBars))]

/-- C5: the unfollow operations are idempotent and unfollowing an
absent relation is a no-op that raises no error: running `_unfollowUser`
(resp. `_unfollowBar`) a second time, from the state and re-fetched
document produced by a successful first run, returns exactly the same
state; and whenever the relation being removed is not present on the
stored actor and target documents (other, unrelated relations may
exist), the operation succeeds and leaves the database unchanged. -/
theorem unfollow_idempotent_and_noop :
    (∀ (db : DB) (user : User) (tid : String) (db1 : DB) (u1 : User),
        UserCtrl._unfollowUser db user tid none = Except.ok (db1, u1) →
          UserCtrl._unfollowUser db1 u1 tid none = Except.ok (db1, u1)) ∧
    (∀ (db : DB) (user : User) (barId : String) (db1 : DB),
        UserCtrl._unfollowBar db user barId none none = Except.ok db1 →
          UserCtrl._unfollowBar db1 user barId none none = Except.ok db1) ∧
    (∀ (db : DB) (user : User) (tid : String) (u0 : User),
        User.get db user._id = Except.ok u0 →
        (∀ w ∈ db.users, w._id = user._id → tid ∉ w.following) →
        (∀ w ∈ db.users, w._id = tid → user._id ∉ w.followers) →
          UserCtrl._unfollowUser db user tid none = Except.ok (db, u0)) ∧
    (∀ (db : DB) (user : User) (barId : String) (bar : Bar),
        Bar.get db barId = Except.ok bar →
        (∀ b ∈ db.bars, b._id = barId → user._id ∉ b.followers) →
        (∀ w ∈ db.users, w._id = user._id → barId ∉ w.followingBars) →
          UserCtrl._unfollowBar db user barId none none = Except.ok db) := by
  refine ⟨?_, ?_, ?_, ?_⟩
  · intro db user tid db1 u1 h
    rw [_unfollowUser_eq db user tid _ (unfollowUser_ok_eq db user tid)] at h
    split at h
    · exact Except.noConfusion h
    · rename_i u heq
      injection h with h2
      injection h2 with hA hB
      subst hB
      rw [hA] at heq
      have hid : u._id = user._id := userGet_ok_id heq
      have hok : User.unfollowUser db1 u tid none = Except.ok db1 := by
        rw [unfollowUser_ok_eq, hid, ← hA]
        exact congrArg Except.ok (unfollow_state_idem db user._id tid)
      rw [_unfollowUser_eq db1 u tid db1 hok, hid, heq]
  · intro db user barId db1 h
    cases hb : Bar.get db barId with
    | error e =>
      have he : UserCtrl._unfollowBar db user barId none none = Except.error e := by
        unfold UserCtrl._unfollowBar; rw [hb]
      rw [he] at h
      exact Except.noConfusion h
    | ok bar =>
      rw [_unfollowBar_ok db user barId bar hb] at h
      injection h with h2
      have hbid : bar._id = barId := barGet_ok_id hb
      subst hbid
      have hb2 : Bar.get db1 bar._id =
          Except.ok { bar with followers := bar.followers.filter (fun i => i != user._id) } := by
        rw [← h2, barGet_after_updateUser,
          barGet_after_updateBar db bar._id
            (fun b => { b with followers := b.followers.filter (fun i => i != user._id) })
            (fun b => rfl),
          hb]
        rfl
      rw [_unfollowBar_ok db1 user bar._id _ hb2]
      rw [← h2]
      exact congrArg Except.ok (unfollowBar_state_idem db user._id bar._id)
  · intro db user tid u0 hget hnof hnor
    have e1 : db.updateUser user._id
        (fun u => { u with following := u.following.filter (fun i => i != tid) }) = db :=
      DB.updateUser_noop db user._id _ (fun u hu hid => by
        show ({ u with following := u.following.filter (fun i => i != tid) } : User) = u
        rw [filter_ne_of_not_mem tid u.following (hnof u hu hid)])
    have e2 : db.updateUser tid
        (fun u => { u with followers := u.followers.filter (fun i => i != user._id) }) = db :=
      DB.updateUser_noop db tid _ (fun u hu hid => by
        show ({ u with followers := u.followers.filter (fun i => i != user._id) } : User) = u
        rw [filter_ne_of_not_mem user._id u.followers (hnor u hu hid)])
    have hok : User.unfollowUser db user tid none = Except.ok db := by
      rw [unfollowUser_ok_eq, e1, e2]
    rw [_unfollowUser_eq db user tid db hok, hget]
  · intro db user barId bar hb hbars husers
    have e1 : db.updateBar bar._id
        (fun b => { b with followers := b.followers.filter (fun i => i != user._id) }) = db :=
      DB.updateBar_noop db bar._id _ (fun b hbm hid => by
        show ({ b with followers := b.followers.filter (fun i => i != user._id) } : Bar) = b
        rw [filter_ne_of_not_mem user._id b.followers
          (hbars b hbm (hid.trans (barGet_ok_id hb)))])
    have e2 : db.updateUser user._id
        (fun u => { u with followingBars := u.followingBars.filter (fun i => i != barId) }) = db :=
      DB.updateUser_noop db user._id _ (fun u hum hid => by
        show ({ u with followingBars := u.followingBars.filter (fun i => i != barId) } : User) = u
        rw [filter_ne_of_not_mem barId u.followingBars (husers u hum hid)])
    have hfin := _unfollowBar_ok db user barId bar hb
    rw [e1, e2] at hfin
    exact hfin

theorem unfollow_idempotent_and_noop_witness :
    UserCtrl._unfollowUser sampleDB2AfterUnfollow sampleUserAUnfollowed "u2" none =
        Except.ok (sampleDB2AfterUnfollow, sampleUserAUnfollowed) ∧
    UserCtrl._unfollowBar sampleDB2AfterUnfollowBar sampleUserA "b1" none none =
        Except.ok sampleDB2AfterUnfollowBar ∧
    UserCtrl._unfollowUser sampleDB3 sampleUserA "u9" none =
        Except.ok (sampleDB3, sampleUserA) ∧
    UserCtrl._unfollowBar sampleDB3 sampleUserA "b2" none none =
        Except.ok sampleDB3 :=
  ⟨unfollow_idempotent_and_noop.1 sampleDB2 sampleUserA "u2" sampleDB2AfterUnfollow
      sampleUserAUnfollowed rfl,
   unfollow_idempotent_and_noop.2.1 sampleDB2 sampleUserA "b1" sampleDB2AfterUnfollowBar rfl,
   unfollow_idempotent_and_noop.2.2.1 sampleDB3 sampleUserA "u9" sampleUserA rfl
      (by decide) (by decide),
   unfollow_idempotent_and_noop.2.2.2 sampleDB3 sampleUserA "b2"
      { sampleBar "b2" with followers := ["u2"] } rfl (by decide) (by decide)⟩
